import Mathlib

/-!
Shallow embedding of the `llm_to_tts` pipeline (src/main.py,
src/playwright_scraper.py, src/tts.py).

The browser side effects (Playwright CDP session) are modelled by an
explicit world record describing what the DOM queries and waits would
observe; each source function becomes a pure Lean function of that world.
-/

/-- A DOM element handle as observed by the extractor: the Playwright
object identity (`handleId`, distinct across separate queries), its tag
name as written in the markup, and its rendered inner text. -/
structure ElementHandle where
  handleId : Nat
  tagName : String
  innerText : String
deriving Repr, DecidableEq

/-- The whitespace characters stripped by Python `str.strip()`
(ASCII range, the only ones arising here). -/
def isPySpace (c : Char) : Bool :=
  c == ' ' || c == '\t' || c == '\n' || c == '\r' || c == '\x0b' || c == '\x0c'

/-- Python `str.strip()`: drop leading and trailing whitespace. -/
def pyStrip (s : String) : String :=
  String.mk (((s.data.dropWhile isPySpace).reverse.dropWhile
    isPySpace).reverse)

/-- JavaScript `String.prototype.toLowerCase` restricted to the ASCII
range (HTML tag names are ASCII). -/
def pyLower (s : String) : String :=
  String.mk (s.data.map Char.toLower)

/-- One entry of `collected_content` in
`navigate_and_extract_content` (src/playwright_scraper.py lines 212-215):
a dict with keys `tag` and `text`. -/
structure ExtractedItem where
  tag : String
  text : String
deriving Repr, DecidableEq

/-- The loop of src/playwright_scraper.py lines 207-215: for each element
(in document order) take `el.tagName.toLowerCase()` and
`inner_text().strip()`, appending to the result only when the stripped
text is non-empty (Python string truthiness). -/
def collectContent : List ElementHandle → List ExtractedItem
  | [] => []
  | el :: rest =>
    let text := pyStrip el.innerText
    if text = "" then collectContent rest
    else { tag := pyLower el.tagName, text := text } :: collectContent rest

/-- Python `'\n\n'.join(texts)` (src/playwright_scraper.py line 223). -/
def joinTexts : List String → String
  | [] => ""
  | [t] => t
  | t :: rest => t ++ "\n\n" ++ joinTexts rest

/-- The result dict built at src/playwright_scraper.py lines 217-224. -/
structure ExtractionResult where
  initial_url : String
  target_url : String
  final_url : String
  title : String
  content : List ExtractedItem
  full_text : String
deriving Repr, DecidableEq

/-- The class marker used for link resolution
(src/playwright_scraper.py lines 150-161). -/
def link_marker_class : String := "group/notification-list-item"

/-- Message of the exception raised at src/playwright_scraper.py
line 177 when no href could be resolved. -/
def link_error_message : String :=
  "Could not find element with class '" ++ link_marker_class ++
    "' or its child anchor tag"

/-- Message of the exception raised at src/playwright_scraper.py
line 201 when the content container is absent. -/
def container_error_message (content_selector : String) : String :=
  "Could not find content element with selector: " ++ content_selector

/-- Warning printed at src/playwright_scraper.py line 145. -/
def click_warning_not_found : String := "Warning: Click element not found"

/-- Warning printed at src/playwright_scraper.py line 147 (the caught
exception text is elided). -/
def click_warning_exception : String := "Warning: Could not click element"

/-- Warning printed at src/playwright_scraper.py line 193. -/
def container_wait_warning (wait_time : Nat) : String :=
  "Warning: Content element not found after " ++ toString wait_time ++
    "ms wait"

/-- What the browser world answers to the queries issued by
`navigate_and_extract_content`:
* `clickWaitSucceeds`: `wait_for_selector(click_selector)` returns
  without a timeout exception (line 137);
* `clickElementFound`: `query_selector(click_selector)` is truthy
  (line 138);
* `href`: result of the link-resolution `page.evaluate` (lines 153-161),
  `none` for JavaScript `null`;
* `containerWaitSucceeds`: `wait_for_selector(content_selector)` returns
  without a timeout exception (line 191);
* `containerChildren`: `none` when `query_selector(content_selector)` is
  falsy (line 195), else the elements returned in document order by
  `query_selector_all('p, h2, h3, h4, ul, ol, pre, code')` (line 205);
* `finalUrl`, `titleStr`: `new_page.url` and `new_page.title()`
  (lines 220-221). -/
structure PageWorld where
  clickWaitSucceeds : Bool
  clickElementFound : Bool
  href : Option String
  containerWaitSucceeds : Bool
  containerChildren : Option (List ElementHandle)
  finalUrl : String
  titleStr : String

/-- Observable outcome of one `navigate_and_extract_content` call:
warnings printed, whether the optional click happened, the extra
`wait_for_timeout` issued after a successful click, and the returned
dict or the raised exception's message. -/
structure RunTrace where
  warnings : List String
  clicked : Bool
  extraPauseMs : Nat
  result : Except String ExtractionResult

/-- Step 1.5 of `navigate_and_extract_content`
(src/playwright_scraper.py lines 134-147): when a click selector is
given, wait for it (a timeout is caught, warned about and ignored),
query it, click it when found and then `wait_for_timeout(2000)`.
Returns (warnings, clicked, extra pause ms). -/
def runClickStep (click_selector : Option String) (w : PageWorld) :
    List String × Bool × Nat :=
  match click_selector with
  | none => ([], false, 0)
  | some _ =>
    if w.clickWaitSucceeds then
      if w.clickElementFound then ([], true, 2000)
      else ([click_warning_not_found], false, 0)
    else ([click_warning_exception], false, 0)

/-- `navigate_and_extract_content` (src/playwright_scraper.py
lines 94-238) over a `PageWorld`: optional click step, link resolution
(raising when the evaluated href is falsy, line 163), navigation to the
resolved link, container wait (timeout only warned about, lines 190-193),
container re-query (raising when absent, lines 195-201), extraction and
assembly of the result dict. -/
def navigate_and_extract_content (initial_url content_selector : String)
    (wait_time : Nat) (click_selector : Option String) (w : PageWorld) :
    RunTrace :=
  match w.href with
  | none =>
    { warnings := (runClickStep click_selector w).1,
      clicked := (runClickStep click_selector w).2.1,
      extraPauseMs := (runClickStep click_selector w).2.2,
      result := Except.error link_error_message }
  | some href =>
    if href = "" then
      { warnings := (runClickStep click_selector w).1,
        clicked := (runClickStep click_selector w).2.1,
        extraPauseMs := (runClickStep click_selector w).2.2,
        result := Except.error link_error_message }
    else
      match w.containerChildren with
      | none =>
        { warnings := (runClickStep click_selector w).1 ++
            (if w.containerWaitSucceeds then []
             else [container_wait_warning wait_time]),
          clicked := (runClickStep click_selector w).2.1,
          extraPauseMs := (runClickStep click_selector w).2.2,
          result := Except.error (container_error_message content_selector) }
      | some children =>
        { warnings := (runClickStep click_selector w).1 ++
            (if w.containerWaitSucceeds then []
             else [container_wait_warning wait_time]),
          clicked := (runClickStep click_selector w).2.1,
          extraPauseMs := (runClickStep click_selector w).2.2,
          result := Except.ok
            { initial_url := initial_url,
              target_url := href,
              final_url := w.finalUrl,
              title := w.titleStr,
              content := collectContent children,
              full_text :=
                joinTexts ((collectContent children).map
                  ExtractedItem.text) } }

/-- The click selector hardcoded in `navigate_with_specific_selectors`
(src/playwright_scraper.py line 253). -/
def click_selector_const : String :=
  "#root > div.border-subtlest.ring-subtlest.divide-subtlest.bg-base > div > div > div.group\\/sidebar.relative.z-10.hidden.min-h-0.flex-none.flex-row-reverse.md\\:flex.border-r.border-subtlest.ring-subtlest.divide-subtlest.bg-base > div.pb-md.scrollbar-none.relative.flex.h-full.flex-col.items-center.overflow-y-auto.overflow-x-hidden.border-subtlest.ring-subtlest.divide-subtlest.bg-transparent > div.gap-md.pt-sm.mt-auto.flex.w-full.min-w-0.flex-col.items-center.justify-center.\\[\\&\\>\\*\\]\\:w-full.pb-sm > div.relative.flex.flex-col.items-center.justify-center > span > div > div > button"

/-- The content container selector hardcoded in
`navigate_with_specific_selectors` (src/playwright_scraper.py line 256). -/
def content_selector_const : String := "#markdown-content-0 > div > div > div"

/-- `navigate_with_specific_selectors` (src/playwright_scraper.py
lines 241-264): the pipeline with the hardcoded selectors and
`wait_time=5000`. -/
def navigate_with_specific_selectors (initial_url : String)
    (w : PageWorld) : RunTrace :=
  navigate_and_extract_content initial_url content_selector_const 5000
    (some click_selector_const) w

/-- The URL `test_cdp_connection` navigates to
(src/playwright_scraper.py line 288). -/
def cdp_test_url : String := "https://example.com"

/-- What the CDP endpoint answers during the connection test:
whether `connect_over_cdp` succeeds, and which URLs the test page can
navigate to without an exception. -/
structure CdpWorld where
  connectOk : Bool
  reachable : String → Bool

/-- `test_cdp_connection` (src/playwright_scraper.py lines 267-299):
connect, navigate the page to `https://example.com`, return `true`;
any exception is caught and yields `false`. -/
def test_cdp_connection (cw : CdpWorld) : Bool :=
  cw.connectOk && cw.reachable cdp_test_url

/-- One call of `tts_to_file` (src/tts.py line 24), recording the
arguments passed to the model. -/
structure TtsCall where
  text : String
  file_path : String
  split_sentences : Bool
deriving Repr, DecidableEq

/-- `generate_audio_file` (src/tts.py lines 22-24): the list of model
invocations it performs — a single `tts_to_file` call on the whole text
with `split_sentences=False`. -/
def generate_audio_file (text : String) (output_file : String) :
    List TtsCall :=
  [{ text := text, file_path := output_file, split_sentences := false }]

/-- The hardcoded target URL of the run (src/main.py line 29). -/
def perplexity_url : String := "https://www.perplexity.ai/"

/-- `reduce(lambda x, y: x + y['text'], content, "")`
(src/main.py line 33): left fold concatenating the item texts with no
separator. -/
def mainConcat (content : List ExtractedItem) : String :=
  content.foldl (fun x y => x ++ y.text) ""

/-- Observable outcome of running `src/main.py`. -/
structure MainOutcome where
  exitCode : Nat
  printedDiagnostics : Bool
  ttsCalls : List TtsCall
  audioFile : Option String

/-- The `__main__` block of src/main.py (lines 16-41): run the CDP
connection test (exit 1 with the "Please ensure" diagnostics on
failure), then the pipeline against the hardcoded URL; on success fold
the item texts together and call `generate_audio_file` writing
`content.wav`; any exception exits 1 having written no file.
`synthOk` says whether the TTS model call succeeds. -/
def main_run (cw : CdpWorld) (w : PageWorld) (synthOk : Bool) :
    MainOutcome :=
  if test_cdp_connection cw then
    match (navigate_with_specific_selectors perplexity_url w).result with
    | Except.error _ =>
      { exitCode := 1, printedDiagnostics := false, ttsCalls := [],
        audioFile := none }
    | Except.ok r =>
      if synthOk then
        { exitCode := 0, printedDiagnostics := false,
          ttsCalls := generate_audio_file (mainConcat r.content) "content.wav",
          audioFile := some "content.wav" }
      else
        { exitCode := 1, printedDiagnostics := false,
          ttsCalls := generate_audio_file (mainConcat r.content) "content.wav",
          audioFile := none }
  else
    { exitCode := 1, printedDiagnostics := true, ttsCalls := [],
      audioFile := none }

example : collectContent
    [⟨0, "H2", "Title"⟩, ⟨1, "p", "   "⟩, ⟨2, "p", "Body text"⟩] =
    [⟨"h2", "Title"⟩, ⟨"p", "Body text"⟩] := by decide

example : joinTexts ["A", "B"] = "A\n\nB" := by decide

example : mainConcat [⟨"p", "A"⟩, ⟨"p", "B"⟩] = "AB" := by decide

/-- A fully successful page world used to instantiate theorems with
hypotheses at concrete inputs. -/
def wGood : PageWorld :=
  { clickWaitSucceeds := true, clickElementFound := true,
    href := some "https://t.example/x", containerWaitSucceeds := true,
    containerChildren := some [⟨0, "p", " A "⟩, ⟨1, "P", "B"⟩],
    finalUrl := "https://t.example/x", titleStr := "T" }

/-- A page world whose container holds no matching children. -/
def wEmpty : PageWorld :=
  { clickWaitSucceeds := true, clickElementFound := true,
    href := some "h", containerWaitSucceeds := true,
    containerChildren := some [], finalUrl := "f", titleStr := "T" }

/-- A CDP world where the connection test succeeds. -/
def cwGood : CdpWorld :=
  { connectOk := true, reachable := fun _ => true }

/-- C2: `collectContent` keeps exactly the elements with non-empty
stripped text, in input order, mapping each to its lowercased tag and
stripped text; an empty container yields an empty sequence and the
pipeline treats it as success, not an error. -/
theorem collectContent_filter_map_spec :
    (∀ children : List ElementHandle,
      collectContent children =
        (children.filter (fun el => pyStrip el.innerText != "")).map
          (fun el =>
            { tag := pyLower el.tagName, text := pyStrip el.innerText })) ∧
    collectContent [] = [] ∧
    (∀ (iu cs : String) (wt : Nat) (clk : Option String) (w : PageWorld)
      (h : String),
      w.href = some h → h ≠ "" → w.containerChildren = some [] →
      (navigate_and_extract_content iu cs wt clk w).result =
        Except.ok
          { initial_url := iu, target_url := h, final_url := w.finalUrl,
            title := w.titleStr, content := [], full_text := "" }) := by
  refine ⟨?_, rfl, ?_⟩
  · intro children
    induction children with
    | nil => rfl
    | cons el rest ih =>
      by_cases h : pyStrip el.innerText = ""
      · simp [collectContent, h, List.filter_cons, ih]
      · simp [collectContent, h, List.filter_cons, ih]
  · intro iu cs wt clk w h hhref hne hchildren
    unfold navigate_and_extract_content
    rw [hhref, hchildren]
    simp [hne, collectContent, joinTexts]

/-- C2 witness: a concrete empty container yields an `ok` result with
an empty item sequence. -/
theorem collectContent_filter_map_spec_witness :
    (navigate_and_extract_content "u" "sel" 7 none wEmpty).result =
      Except.ok
        { initial_url := "u", target_url := "h", final_url := "f",
          title := "T", content := [], full_text := "" } :=
  collectContent_filter_map_spec.2.2 "u" "sel" 7 none wEmpty "h" rfl
    (by decide) rfl

/-- C7: `generate_audio_file` invokes the model exactly once, passing
the whole input text (of any length) as one synthesis unit with
sentence splitting disabled, and writing to the given path. -/
theorem generate_audio_file_single_call :
    ∀ (text output_file : String),
      (generate_audio_file text output_file).length = 1 ∧
      generate_audio_file text output_file =
        [{ text := text, file_path := output_file,
           split_sentences := false }] := by
  intro text output_file
  exact ⟨rfl, rfl⟩

/-- C8: the tag recorded for a matched element is its tag name
lowercased, so elements whose tag names differ only in case yield
identical items. -/
theorem tag_case_normalized :
    ∀ (h₁ h₂ : Nat) (n₁ n₂ t : String) (rest : List ElementHandle),
      pyLower n₁ = pyLower n₂ → pyStrip t ≠ "" →
      (collectContent
          ({ handleId := h₁, tagName := n₁, innerText := t } :: rest)).head? =
        some { tag := pyLower n₁, text := pyStrip t } ∧
      collectContent
          ({ handleId := h₁, tagName := n₁, innerText := t } :: rest) =
        collectContent
          ({ handleId := h₂, tagName := n₂, innerText := t } :: rest) := by
  intro h₁ h₂ n₁ n₂ t rest hlow hne
  constructor
  · simp [collectContent, hne]
  · simp [collectContent, hne, hlow]

/-- C8 witness: `<P>` and `<p>` around the same text yield the same
single item, whose tag is the lower-case `"p"`. -/
theorem tag_case_normalized_witness :
    (collectContent
        [{ handleId := 0, tagName := "P", innerText := " Hi " }]).head? =
      some { tag := "p", text := "Hi" } ∧
    collectContent
        [{ handleId := 0, tagName := "P", innerText := " Hi " }] =
      collectContent
        [{ handleId := 1, tagName := "p", innerText := " Hi " }] := by
  have h := tag_case_normalized 0 1 "P" "p" " Hi " [] (by decide) (by decide)
  exact ⟨by rw [h.1]; decide, h.2⟩

/-- C9: the extractor only reads each element's tag name and inner
text, so two queries returning fresh handles for the same unchanged
container (pointwise equal tags and texts) produce identical ordered
item sequences. -/
theorem collectContent_deterministic :
    ∀ (l₁ l₂ : List ElementHandle),
      List.Forall₂
        (fun a b => a.tagName = b.tagName ∧ a.innerText = b.innerText)
        l₁ l₂ →
      collectContent l₁ = collectContent l₂ := by
  intro l₁ l₂ hall
  induction hall with
  | nil => rfl
  | cons hab _ ih =>
    simp only [collectContent, hab.1, hab.2, ih]

/-- C9 witness: two handle lists differing only in handle identity
extract to the same sequence. -/
theorem collectContent_deterministic_witness :
    collectContent [⟨0, "p", "x"⟩] = collectContent [⟨7, "p", "x"⟩] :=
  collectContent_deterministic _ _
    (List.Forall₂.cons ⟨rfl, rfl⟩ List.Forall₂.nil)

/-- On success the assembled result's `full_text` is the blank-line
join of its items' texts. -/
theorem nav_result_ok_full_text (iu cs : String) (wt : Nat)
    (clk : Option String) (w : PageWorld) (r : ExtractionResult)
    (h : (navigate_and_extract_content iu cs wt clk w).result =
      Except.ok r) :
    r.full_text = joinTexts (r.content.map ExtractedItem.text) := by
  obtain ⟨cws, cef, href, cwait, cch, fu, ti⟩ := w
  rcases href with _ | href
  · simp [navigate_and_extract_content] at h
  · rcases cch with _ | children
    · by_cases he : href = "" <;>
        simp [navigate_and_extract_content, he] at h
    · by_cases he : href = ""
      · simp [navigate_and_extract_content, he] at h
      · simp only [navigate_and_extract_content, if_neg he,
          Except.ok.injEq] at h
        subst h
        rfl

/-- Any error escaping the pipeline is the link-resolution error or
the missing-container error. -/
theorem nav_result_error_cases (iu cs : String) (wt : Nat)
    (clk : Option String) (w : PageWorld) (e : String)
    (h : (navigate_and_extract_content iu cs wt clk w).result =
      Except.error e) :
    e = link_error_message ∨ e = container_error_message cs := by
  obtain ⟨cws, cef, href, cwait, cch, fu, ti⟩ := w
  rcases href with _ | href
  · simp only [navigate_and_extract_content, Except.error.injEq] at h
    exact Or.inl h.symm
  · rcases cch with _ | children
    · by_cases he : href = ""
      · simp only [navigate_and_extract_content, if_pos he,
          Except.error.injEq] at h
        exact Or.inl h.symm
      · simp only [navigate_and_extract_content, if_neg he,
          Except.error.injEq] at h
        exact Or.inr h.symm
    · by_cases he : href = ""
      · simp only [navigate_and_extract_content, if_pos he,
          Except.error.injEq] at h
        exact Or.inl h.symm
      · simp [navigate_and_extract_content, if_neg he] at h

/-- The `clicked` flag of the trace comes from the click step alone. -/
theorem nav_clicked_eq (iu cs : String) (wt : Nat) (clk : Option String)
    (w : PageWorld) :
    (navigate_and_extract_content iu cs wt clk w).clicked =
      (runClickStep clk w).2.1 := by
  unfold navigate_and_extract_content
  rcases hh : w.href with _ | href <;> simp
  by_cases he : href = "" <;> simp [he]
  rcases hc : w.containerChildren with _ | children <;> simp

/-- The extra pause of the trace comes from the click step alone. -/
theorem nav_pause_eq (iu cs : String) (wt : Nat) (clk : Option String)
    (w : PageWorld) :
    (navigate_and_extract_content iu cs wt clk w).extraPauseMs =
      (runClickStep clk w).2.2 := by
  unfold navigate_and_extract_content
  rcases hh : w.href with _ | href <;> simp
  by_cases he : href = "" <;> simp [he]
  rcases hc : w.containerChildren with _ | children <;> simp

/-- The click step's warnings open the trace's warning list. -/
theorem nav_warnings_shape (iu cs : String) (wt : Nat)
    (clk : Option String) (w : PageWorld) :
    ∃ ws, (navigate_and_extract_content iu cs wt clk w).warnings =
      (runClickStep clk w).1 ++ ws := by
  unfold navigate_and_extract_content
  rcases hh : w.href with _ | href <;> simp
  by_cases he : href = "" <;> simp [he]
  rcases hc : w.containerChildren with _ | children <;> simp

/-- Length of the no-separator fold used by the top-level caller. -/
theorem mainConcat_foldl_length :
    ∀ (items : List ExtractedItem) (acc : String),
      (List.foldl (fun x y => x ++ y.text) acc items).length =
        acc.length + ((items.map ExtractedItem.text).map String.length).sum := by
  intro items
  induction items with
  | nil => intro acc; simp
  | cons it rest ih =>
    intro acc
    simp only [List.foldl, List.map, List.sum_cons, ih,
      String.length_append]
    omega

/-- Unfolding equation for `joinTexts` on a list of two or more. -/
theorem joinTexts_cons₂ (t u : String) (rest : List String) :
    joinTexts (t :: u :: rest) = t ++ "\n\n" ++ joinTexts (u :: rest) :=
  rfl

/-- The join never loses characters. -/
theorem sum_le_joinTexts_length :
    ∀ ts : List String, (ts.map String.length).sum ≤ (joinTexts ts).length
  | [] => by simp [joinTexts]
  | [t] => by simp [joinTexts]
  | t :: u :: rest => by
    have ih := sum_le_joinTexts_length (u :: rest)
    rw [joinTexts_cons₂]
    simp only [List.map, List.sum_cons, String.length_append] at *
    have h2 : ("\n\n" : String).length = 2 := by decide
    omega

/-- With at least two pieces the join is strictly longer than the sum
of the pieces: each separator adds two characters. -/
theorem two_le_joinTexts_length (ts : List String) (h : 2 ≤ ts.length) :
    (ts.map String.length).sum + 2 ≤ (joinTexts ts).length := by
  rcases ts with _ | ⟨t, _ | ⟨u, rest⟩⟩
  · simp at h
  · simp at h
  · have ih := sum_le_joinTexts_length (u :: rest)
    rw [joinTexts_cons₂]
    simp only [List.map, List.sum_cons, String.length_append] at *
    have h2 : ("\n\n" : String).length = 2 := by decide
    omega

/-- A page world where the link-resolution evaluate finds nothing. -/
def wNoHref : PageWorld :=
  { clickWaitSucceeds := true, clickElementFound := true, href := none,
    containerWaitSucceeds := true, containerChildren := some [],
    finalUrl := "f", titleStr := "T" }

/-- A page world where the container wait times out and the container
is indeed absent. -/
def wSlow : PageWorld :=
  { clickWaitSucceeds := true, clickElementFound := true,
    href := some "h", containerWaitSucceeds := false,
    containerChildren := none, finalUrl := "f", titleStr := "T" }

/-- A page world where the click-selector wait times out. -/
def wClickFail : PageWorld :=
  { clickWaitSucceeds := false, clickElementFound := false,
    href := some "h", containerWaitSucceeds := true,
    containerChildren := some [], finalUrl := "f", titleStr := "T" }

/-- C1: the sequencer's `full_text` joins item texts with a blank line
while the top-level caller concatenates them with no separator; on any
run producing at least two items with non-empty texts the two strings
differ. -/
theorem full_text_ne_main_concat :
    ∀ (iu cs : String) (wt : Nat) (clk : Option String) (w : PageWorld)
      (r : ExtractionResult),
      (navigate_and_extract_content iu cs wt clk w).result =
        Except.ok r →
      2 ≤ r.content.length →
      (∀ it ∈ r.content, it.text ≠ "") →
      r.full_text ≠ mainConcat r.content := by
  intro iu cs wt clk w r hok hlen _ heq
  have hshape := nav_result_ok_full_text iu cs wt clk w r hok
  have hm : (mainConcat r.content).length =
      ((r.content.map ExtractedItem.text).map String.length).sum := by
    simpa [mainConcat] using mainConcat_foldl_length r.content ""
  have hlen2 : 2 ≤ (r.content.map ExtractedItem.text).length := by
    simpa using hlen
  have hj := two_le_joinTexts_length (r.content.map ExtractedItem.text)
    hlen2
  rw [← hshape, heq] at hj
  omega

/-- C1 witness: the run on `wGood` yields items `A`, `B` with
`full_text = "A\n\nB"`, which differs from the caller's `"AB"`. -/
theorem full_text_ne_main_concat_witness :
    "A\n\nB" ≠
      mainConcat [{ tag := "p", text := "A" }, { tag := "p", text := "B" }] :=
  full_text_ne_main_concat "u" "s" 0 none wGood
    { initial_url := "u", target_url := "https://t.example/x",
      final_url := "https://t.example/x", title := "T",
      content := [{ tag := "p", text := "A" }, { tag := "p", text := "B" }],
      full_text := "A\n\nB" }
    rfl (by decide) (by decide)

/-- C3: a failed link resolution raises the fatal error naming the
class marker; no result (hence no items) is produced and the top level
writes no audio file and makes no synthesis call. -/
theorem link_marker_absent_fatal :
    ∀ (iu cs : String) (wt : Nat) (clk : Option String) (w : PageWorld)
      (cw : CdpWorld) (synthOk : Bool),
      w.href = none →
      (navigate_and_extract_content iu cs wt clk w).result =
          Except.error link_error_message ∧
      link_error_message =
        "Could not find element with class 'group/notification-list-item' or its child anchor tag" ∧
      (∀ r, (navigate_and_extract_content iu cs wt clk w).result ≠
        Except.ok r) ∧
      (main_run cw w synthOk).audioFile = none ∧
      (main_run cw w synthOk).ttsCalls = [] := by
  intro iu cs wt clk w cw synthOk hhref
  have hres : ∀ (iu' cs' : String) (wt' : Nat) (clk' : Option String),
      (navigate_and_extract_content iu' cs' wt' clk' w).result =
        Except.error link_error_message := by
    intro iu' cs' wt' clk'
    unfold navigate_and_extract_content
    rw [hhref]
  refine ⟨hres iu cs wt clk, rfl, ?_, ?_, ?_⟩
  · intro r hr
    rw [hres] at hr
    exact Except.noConfusion hr
  · unfold main_run navigate_with_specific_selectors
    rw [hres]
    by_cases ht : test_cdp_connection cw <;> simp [ht]
  · unfold main_run navigate_with_specific_selectors
    rw [hres]
    by_cases ht : test_cdp_connection cw <;> simp [ht]

/-- C3 witness: the world with no resolvable href produces exactly the
marker-naming error, no result, no audio file, no synthesis call. -/
theorem link_marker_absent_fatal_witness :
    (navigate_and_extract_content "u" "s" 5 none wNoHref).result =
        Except.error link_error_message ∧
      link_error_message =
        "Could not find element with class 'group/notification-list-item' or its child anchor tag" ∧
      (∀ r, (navigate_and_extract_content "u" "s" 5 none wNoHref).result ≠
        Except.ok r) ∧
      (main_run cwGood wNoHref true).audioFile = none ∧
      (main_run cwGood wNoHref true).ttsCalls = [] :=
  link_marker_absent_fatal "u" "s" 5 none wNoHref cwGood true rfl

/-- C4: a timeout waiting for the content container only logs a
warning; the pipeline re-queries the container and fails fatally,
naming the selector and returning no result, exactly when the container
is still absent. -/
theorem container_wait_timeout_nonfatal :
    ∀ (iu cs : String) (wt : Nat) (clk : Option String) (w : PageWorld)
      (h : String),
      w.href = some h → h ≠ "" → w.containerWaitSucceeds = false →
      container_wait_warning wt ∈
        (navigate_and_extract_content iu cs wt clk w).warnings ∧
      ((navigate_and_extract_content iu cs wt clk w).result =
          Except.error (container_error_message cs) ↔
        w.containerChildren = none) ∧
      (w.containerChildren = none →
        ∀ r, (navigate_and_extract_content iu cs wt clk w).result ≠
          Except.ok r) := by
  intro iu cs wt clk w h hhref hne hwait
  obtain ⟨cws, cef, href, cwait, cch, fu, ti⟩ := w
  simp only at hhref hwait
  subst hhref
  subst hwait
  rcases cch with _ | children
  · refine ⟨?_, ?_, ?_⟩
    · simp [navigate_and_extract_content, hne]
    · simp [navigate_and_extract_content, hne]
    · intro _ r hr
      simp [navigate_and_extract_content, hne] at hr
  · refine ⟨?_, ?_, ?_⟩
    · simp [navigate_and_extract_content, hne]
    · simp [navigate_and_extract_content, hne]
    · intro hcontra
      simp at hcontra

/-- C4 witness: container wait times out and the container is absent:
the warning is printed and the run fails with the selector-naming
error, producing no result. -/
theorem container_wait_timeout_nonfatal_witness :
    container_wait_warning 5000 ∈
        (navigate_and_extract_content "u" "sel" 5000 none wSlow).warnings ∧
      ((navigate_and_extract_content "u" "sel" 5000 none wSlow).result =
          Except.error (container_error_message "sel") ↔
        wSlow.containerChildren = none) ∧
      (wSlow.containerChildren = none →
        ∀ r, (navigate_and_extract_content "u" "sel" 5000 none wSlow).result ≠
          Except.ok r) :=
  container_wait_timeout_nonfatal "u" "sel" 5000 none wSlow "h" rfl
    (by decide) rfl

/-- C5: the program first runs the fixed connection test (which checks
reachability of `https://example.com`), exits with code 1 printing the
diagnostics when it fails, and otherwise runs the pipeline against the
hardcoded target URL, either writing `content.wav` with exit code 0 or
exiting with code 1 and no file. -/
theorem main_run_spec :
    ∀ (cw : CdpWorld) (w : PageWorld) (synthOk : Bool),
      perplexity_url = "https://www.perplexity.ai/" ∧
      cdp_test_url = "https://example.com" ∧
      test_cdp_connection cw = (cw.connectOk && cw.reachable cdp_test_url) ∧
      (test_cdp_connection cw = false →
        main_run cw w synthOk =
          { exitCode := 1, printedDiagnostics := true, ttsCalls := [],
            audioFile := none }) ∧
      (test_cdp_connection cw = true →
        ((main_run cw w synthOk).audioFile = some "content.wav" ∧
            (main_run cw w synthOk).exitCode = 0) ∨
        ((main_run cw w synthOk).audioFile = none ∧
            (main_run cw w synthOk).exitCode = 1)) := by
  intro cw w synthOk
  refine ⟨rfl, rfl, rfl, ?_, ?_⟩
  · intro ht
    simp [main_run, ht]
  · intro ht
    rcases hr : (navigate_with_specific_selectors perplexity_url w).result
      with e | r
    · right
      simp [main_run, ht, hr]
    · rcases synthOk with _ | _
      · right
        simp [main_run, ht, hr]
      · left
        simp [main_run, ht, hr]

/-- C5 witness: on a fully successful concrete world the run writes
`content.wav` and exits 0 (left disjunct). -/
theorem main_run_spec_witness :
    ((main_run cwGood wGood true).audioFile = some "content.wav" ∧
        (main_run cwGood wGood true).exitCode = 0) ∨
      ((main_run cwGood wGood true).audioFile = none ∧
        (main_run cwGood wGood true).exitCode = 1) :=
  (main_run_spec cwGood wGood true).2.2.2.2 rfl

/-- C6: the optional click step clicks and pauses 2000ms when the
element is found, only warns (without aborting) when the wait times out
or the element is absent, and the pipeline's only fatal errors are the
link-resolution and container errors — never a click failure. -/
theorem click_step_nonfatal :
    ∀ (iu cs : String) (wt : Nat) (sel : String) (w : PageWorld),
      (w.clickWaitSucceeds = true → w.clickElementFound = true →
        (navigate_and_extract_content iu cs wt (some sel) w).clicked =
            true ∧
        (navigate_and_extract_content iu cs wt (some sel) w).extraPauseMs =
          2000) ∧
      (w.clickWaitSucceeds = false →
        (navigate_and_extract_content iu cs wt (some sel) w).clicked =
            false ∧
        click_warning_exception ∈
          (navigate_and_extract_content iu cs wt (some sel) w).warnings) ∧
      (w.clickWaitSucceeds = true → w.clickElementFound = false →
        (navigate_and_extract_content iu cs wt (some sel) w).clicked =
            false ∧
        click_warning_not_found ∈
          (navigate_and_extract_content iu cs wt (some sel) w).warnings) ∧
      (∀ e, (navigate_and_extract_content iu cs wt (some sel) w).result =
          Except.error e →
        e = link_error_message ∨ e = container_error_message cs) := by
  intro iu cs wt sel w
  refine ⟨?_, ?_, ?_, ?_⟩
  · intro h1 h2
    rw [nav_clicked_eq, nav_pause_eq]
    simp [runClickStep, h1, h2]
  · intro h1
    obtain ⟨ws, hws⟩ := nav_warnings_shape iu cs wt (some sel) w
    rw [nav_clicked_eq, hws]
    simp [runClickStep, h1]
  · intro h1 h2
    obtain ⟨ws, hws⟩ := nav_warnings_shape iu cs wt (some sel) w
    rw [nav_clicked_eq, hws]
    simp [runClickStep, h1, h2]
  · intro e he
    exact nav_result_error_cases iu cs wt (some sel) w e he

/-- C6 witness: with the click wait timing out, the element is not
clicked, the warning is logged, and the pipeline continues. -/
theorem click_step_nonfatal_witness :
    (navigate_and_extract_content "u" "s" 5 (some "sel") wClickFail).clicked =
        false ∧
      click_warning_exception ∈
        (navigate_and_extract_content "u" "s" 5 (some "sel")
          wClickFail).warnings :=
  (click_step_nonfatal "u" "s" 5 "sel" wClickFail).2.1 rfl

/-- C10: when the pipeline succeeds with zero items, the top level
still calls the synthesis sink, passing the empty string produced by
the fold over item texts. -/
theorem empty_extraction_still_synthesizes :
    ∀ (cw : CdpWorld) (w : PageWorld) (synthOk : Bool)
      (r : ExtractionResult),
      test_cdp_connection cw = true →
      (navigate_with_specific_selectors perplexity_url w).result =
        Except.ok r →
      r.content = [] →
      (main_run cw w synthOk).ttsCalls =
        [{ text := "", file_path := "content.wav",
           split_sentences := false }] ∧
      mainConcat r.content = "" := by
  intro cw w synthOk r ht hr hc
  have hmc : mainConcat r.content = "" := by
    rw [hc]
    rfl
  refine ⟨?_, hmc⟩
  rcases synthOk with _ | _ <;>
    simp [main_run, ht, hr, generate_audio_file, hmc]

/-- C10 witness: the empty-container world yields zero items and one
synthesis call on the empty string. -/
theorem empty_extraction_still_synthesizes_witness :
    (main_run cwGood wEmpty true).ttsCalls =
        [{ text := "", file_path := "content.wav",
           split_sentences := false }] ∧
      mainConcat [] = "" :=
  empty_extraction_still_synthesizes cwGood wEmpty true
    { initial_url := "https://www.perplexity.ai/", target_url := "h",
      final_url := "f", title := "T", content := [], full_text := "" }
    rfl rfl rfl
